import Mathlib

/-!
Shallow embedding of the `process-animation` repository's numeric and
control logic.  JavaScript numbers are modelled by `ℚ`: every arithmetic
operation appearing in the embedded code (addition, multiplication,
division, `Math.min`, `Math.max`, integer powers) is exact on the
rationals, so the rational model is faithful to the source expressions.

Namespaces mirror the source files:
* `NurseAnim`    — `NurseAssessmentAnimation` and its helpers (part_000);
* `Combined`     — `CombinedAnimation` and its helpers (part_001);
* `DoctorAnim`   — `DoctorProcessAnimation.tsx`.
-/

namespace NurseAnim

/-- `function clamp01(n) { return Math.min(1, Math.max(0, n)); }`
(part_000, line 293). -/
def clamp01 (n : ℚ) : ℚ := min 1 (max 0 n)

/-- `function mapRange(v, a, b) { if (v <= a) return 0; if (v >= b) return 1;
return (v - a) / (b - a); }` (part_000, lines 294–296). -/
def mapRange (v a b : ℚ) : ℚ :=
  if v ≤ a then 0 else if v ≥ b then 1 else (v - a) / (b - a)

/-- `function easeInOutQuad(t) { return t < 0.5 ? 2*t*t : 1 - Math.pow(-2*t+2, 2)/2; }`
(part_000, lines 123–125). -/
def easeInOutQuad (t : ℚ) : ℚ :=
  if t < 1/2 then 2 * t * t else 1 - (-2 * t + 2) ^ 2 / 2

/-- One tick of the animation-frame loop of `NurseAssessmentAnimation`
(part_000, lines 208–216): `let ns = s + (dt * speed) / dur; if (ns >= 1)
ns = 1; return ns;` with `dur = 6000`. -/
def tickStep (s dt speed : ℚ) : ℚ :=
  let ns := s + (dt * speed) / 6000
  if ns ≥ 1 then 1 else ns

/-- `const writeProg = clamp01(mapRange(step, 0.0, 0.35));` (part_000, line 225). -/
def writeProg (step : ℚ) : ℚ := clamp01 (mapRange step 0 0.35)

/-- `const arrowProg = clamp01(mapRange(step, 0.35, 0.55));` (part_000, line 226). -/
def arrowProg (step : ℚ) : ℚ := clamp01 (mapRange step 0.35 0.55)

/-- `const fileProg = clamp01(mapRange(step, 0.35, 0.80));` (part_000, line 227). -/
def fileProg (step : ℚ) : ℚ := clamp01 (mapRange step 0.35 0.80)

/-- `const showVitals = step >= 0.6;` (part_000, line 229). -/
def showVitals (step : ℚ) : Prop := step ≥ 0.6

/-- `const showPain = step >= 0.75;` (part_000, line 230). -/
def showPain (step : ℚ) : Prop := step ≥ 0.75

/-- `const showNotes = step >= 0.9;` (part_000, line 231). -/
def showNotes (step : ℚ) : Prop := step ≥ 0.9

instance (step : ℚ) : Decidable (showVitals step) := by unfold showVitals; infer_instance

instance (step : ℚ) : Decidable (showPain step) := by unfold showPain; infer_instance

instance (step : ℚ) : Decidable (showNotes step) := by unfold showNotes; infer_instance

/-- JavaScript truthiness of an optional string prop: `undefined` and the
empty string are falsy, every other string is truthy. -/
def jsTruthyStr : Option String → Bool
  | none => false
  | some s => decide (¬ s = "")

/-- The render result of `FileTransfer` (part_000, lines 128–165), abstracted
to the data the claims are about: `null` (`none`) on the early return
`if (!fileIconUrl || progress <= 0 || progress > 1) return null;`, otherwise
the eased arc parameter `p = easeInOutQuad(clamp01(progress))` at which the
file icon is positioned on the half-circle arc. -/
def fileTransferRender (progress : ℚ) (fileIconUrl : Option String) : Option ℚ :=
  if jsTruthyStr fileIconUrl = false ∨ progress ≤ 0 ∨ progress > 1 then none
  else some (easeInOutQuad (clamp01 progress))

/-- Which nurse icon `NurseAssessmentAnimation` uses (part_000, lines
188–190): `nurseIconUrl ? () => <img .../> : SvgNurseCap`. -/
inductive NurseIconChoice
  | svgNurseCap
  | imgNurse (url : String)
deriving DecidableEq

/-- `const NurseIcon = useMemo(() => nurseIconUrl ? () => <img ... /> :
SvgNurseCap, [nurseIconUrl]);` — a falsy `nurseIconUrl` (absent or empty)
selects the built-in `SvgNurseCap`. -/
def nurseIcon (nurseIconUrl : Option String) : NurseIconChoice :=
  match nurseIconUrl with
  | none => .svgNurseCap
  | some u => if u = "" then .svgNurseCap else .imgNurse u

end NurseAnim

namespace Combined

/-- `function clamp01(n) { return Math.min(1, Math.max(0, n)); }`
(part_001, lines 213–215) — a second copy, local to `CombinedAnimation`. -/
def clamp01 (n : ℚ) : ℚ := min 1 (max 0 n)

/-- `cubicBezierPoint` (part_001, lines 193–212): Bernstein-form evaluation
of a cubic Bézier through `(x1,y1)` and `(x2,y2)` with control points
`(cx1,cy1)`, `(cx2,cy2)`. -/
def cubicBezierPoint (t x1 y1 cx1 cy1 cx2 cy2 x2 y2 : ℚ) : ℚ × ℚ :=
  let u := 1 - t
  let tt := t * t
  let uu := u * u
  let uuu := uu * u
  let ttt := tt * t
  (uuu * x1 + 3 * uu * t * cx1 + 3 * u * tt * cx2 + ttt * x2,
   uuu * y1 + 3 * uu * t * cy1 + 3 * u * tt * cy2 + ttt * y2)

/-- The progress computed on each frame of the bridge loop of
`CombinedAnimation` (part_001, line 74):
`const p = Math.min(1, (now - t0) / bridgeDurationMs);`. -/
def bridgeProgress (t0 dur now : ℚ) : ℚ := min 1 ((now - t0) / dur)

/-- State of the bridge animation-frame loop: the number of outstanding
`requestAnimationFrame` requests and the last progress written by
`setBridgeProg`. -/
structure BridgeState where
  outstanding : ℕ
  prog : ℚ
deriving DecidableEq

/-- The state just after the effect body runs (part_001, lines 66–81):
`setBridgeProg(0)` has run in `triggerFileRun` and one frame has been
requested by `raf = requestAnimationFrame(tick);`. -/
def bridgeInit : BridgeState := { outstanding := 1, prog := 0 }

/-- One delivered animation frame at time `now` (part_001, lines 72–79):
the frame callback fires only if a request is outstanding (consuming it),
sets progress to `min(1, (now - t0)/dur)`, and requests exactly one new
frame iff `p < 1`. -/
def bridgeTick (t0 dur : ℚ) (st : BridgeState) (now : ℚ) : BridgeState :=
  if st.outstanding = 0 then st
  else
    let p := bridgeProgress t0 dur now
    { outstanding := if p < 1 then 1 else 0, prog := p }

/-- Running the bridge loop over a list of frame-delivery times. -/
def runBridge (t0 dur : ℚ) (times : List ℚ) : BridgeState :=
  times.foldl (bridgeTick t0 dur) bridgeInit

/-- The effect cleanup (part_001, lines 82–85): `cancelled = true;
if (raf) cancelAnimationFrame(raf);` — no request remains outstanding. -/
def cancelBridge (st : BridgeState) : BridgeState := { st with outstanding := 0 }

end Combined

namespace DoctorAnim

/-- A post-diagnosis step of `DoctorProcessAnimation` (`type Step = { title: string }`). -/
structure Step where
  title : String
deriving DecidableEq

/-- The default `steps` list (DoctorProcessAnimation.tsx, lines 45–51). -/
def defaultSteps : List Step :=
  [⟨"Lab Order"⟩, ⟨"Prescription Order"⟩, ⟨"Imaging Order"⟩,
   ⟨"Follow up"⟩, ⟨"Referral"⟩]

/-- Destructuring default: `steps = [...]` applies when the prop is omitted. -/
def resolveSteps (steps : Option (List Step)) : List Step := steps.getD defaultSteps

/-- Destructuring default: `start = false`. -/
def resolveStart (start : Option Bool) : Bool := start.getD false

/-- Destructuring default: `staggerMs = 750`. -/
def resolveStaggerMs (staggerMs : Option ℚ) : ℚ := staggerMs.getD 750

/-- Destructuring default: `disableFinalHandoff = false`. -/
def resolveDisableFinalHandoff (disableFinalHandoff : Option Bool) : Bool :=
  disableFinalHandoff.getD false

/-- Destructuring default: `clinicalNoteText = "Clinical Note"`. -/
def resolveClinicalNoteText (clinicalNoteText : Option String) : String :=
  clinicalNoteText.getD "Clinical Note"

/-- `const perItemDelaySec = staggerMs / 2000;` (DoctorProcessAnimation.tsx, line 69). -/
def perItemDelaySec (staggerMs : ℚ) : ℚ := staggerMs / 2000

/-- The `delay` passed to the i-th step's transition (line 144):
`delay: perItemDelaySec * i`. -/
def stepDelaySec (staggerMs : ℚ) (i : ℕ) : ℚ := perItemDelaySec staggerMs * i

/-- `const handoffDelaySec = steps.length * perItemDelaySec + 0.2;` (line 70). -/
def handoffDelaySec (staggerMs : ℚ) (numSteps : ℕ) : ℚ :=
  numSteps * perItemDelaySec staggerMs + 0.2

end DoctorAnim

/-! ## Helper lemmas -/

namespace NurseAnim

theorem clamp01_nonneg (n : ℚ) : 0 ≤ clamp01 n :=
  le_min (by norm_num) (le_max_left 0 n)

theorem clamp01_le_one (n : ℚ) : clamp01 n ≤ 1 := min_le_left 1 _

theorem clamp01_eq_self (n : ℚ) (h0 : 0 ≤ n) (h1 : n ≤ 1) : clamp01 n = n := by
  unfold clamp01
  rw [max_eq_right h0, min_eq_right h1]

theorem clamp01_mono {n m : ℚ} (h : n ≤ m) : clamp01 n ≤ clamp01 m :=
  min_le_min le_rfl (max_le_max le_rfl h)

theorem mapRange_nonneg (v a b : ℚ) : 0 ≤ mapRange v a b := by
  unfold mapRange
  split_ifs with h1 h2
  · exact le_rfl
  · norm_num
  · exact div_nonneg (by linarith) (by linarith)

theorem mapRange_le_one (v a b : ℚ) : mapRange v a b ≤ 1 := by
  unfold mapRange
  split_ifs with h1 h2
  · norm_num
  · exact le_rfl
  · rw [div_le_one (by linarith)]
    linarith

theorem mapRange_mono {v v' : ℚ} (a b : ℚ) (h : v ≤ v') :
    mapRange v a b ≤ mapRange v' a b := by
  unfold mapRange
  split_ifs with h1 h2 h3 h4 h5 h6 h7
  · exact le_rfl
  · norm_num
  · exact div_nonneg (by linarith) (by linarith)
  · linarith
  · exact le_rfl
  · linarith
  · linarith
  · rw [div_le_one (by linarith)]; linarith
  · have hba : (0:ℚ) < b - a := by linarith
    exact (div_le_div_iff_of_pos_right hba).mpr (by linarith)

theorem mapRange_of_le {v a : ℚ} (b : ℚ) (h : v ≤ a) : mapRange v a b = 0 := by
  unfold mapRange
  rw [if_pos h]

theorem mapRange_of_ge {v a b : ℚ} (hab : a < b) (h : b ≤ v) : mapRange v a b = 1 := by
  unfold mapRange
  rw [if_neg (by linarith), if_pos (by linarith)]

end NurseAnim

/-! ## Claim theorems -/

/-- Claim C9: `clamp01` returns a value in `[0,1]` for every input, is the
identity on inputs already in `[0,1]`, and is idempotent; the same holds
for the copy in `CombinedAnimation`. -/
theorem clamp01_bounded_identity_idempotent (n : ℚ) :
    (0 ≤ NurseAnim.clamp01 n ∧ NurseAnim.clamp01 n ≤ 1) ∧
    (0 ≤ n → n ≤ 1 → NurseAnim.clamp01 n = n) ∧
    NurseAnim.clamp01 (NurseAnim.clamp01 n) = NurseAnim.clamp01 n ∧
    ((0 ≤ Combined.clamp01 n ∧ Combined.clamp01 n ≤ 1) ∧
     (0 ≤ n → n ≤ 1 → Combined.clamp01 n = n) ∧
     Combined.clamp01 (Combined.clamp01 n) = Combined.clamp01 n) := by
  have hsame : ∀ m : ℚ, Combined.clamp01 m = NurseAnim.clamp01 m := fun _ => rfl
  refine ⟨⟨NurseAnim.clamp01_nonneg n, NurseAnim.clamp01_le_one n⟩,
    fun h0 h1 => NurseAnim.clamp01_eq_self n h0 h1,
    NurseAnim.clamp01_eq_self _ (NurseAnim.clamp01_nonneg n) (NurseAnim.clamp01_le_one n),
    ?_⟩
  simp only [hsame]
  exact ⟨⟨NurseAnim.clamp01_nonneg n, NurseAnim.clamp01_le_one n⟩,
    fun h0 h1 => NurseAnim.clamp01_eq_self n h0 h1,
    NurseAnim.clamp01_eq_self _ (NurseAnim.clamp01_nonneg n) (NurseAnim.clamp01_le_one n)⟩

/-- Witness for C9 at `n = 1/2`: clamping is the identity there. -/
theorem clamp01_bounded_identity_idempotent_witness :
    NurseAnim.clamp01 (1/2 : ℚ) = 1/2 :=
  (clamp01_bounded_identity_idempotent (1/2)).2.1 (by norm_num) (by norm_num)

/-- Claim C10: `cubicBezierPoint` interpolates its endpoints exactly: at
`t = 0` it returns `(x1, y1)` and at `t = 1` it returns `(x2, y2)`, for all
control-point arguments. -/
theorem cubicBezierPoint_endpoints (x1 y1 cx1 cy1 cx2 cy2 x2 y2 : ℚ) :
    Combined.cubicBezierPoint 0 x1 y1 cx1 cy1 cx2 cy2 x2 y2 = (x1, y1) ∧
    Combined.cubicBezierPoint 1 x1 y1 cx1 cy1 cx2 cy2 x2 y2 = (x2, y2) := by
  constructor <;>
  · unfold Combined.cubicBezierPoint
    simp only [Prod.mk.injEq]
    constructor <;> ring

/-- Claim C1: in the animation-frame loop of `NurseAssessmentAnimation`,
for every tick with `dt ≥ 0` and `speed ≥ 0`, if the step value before the
tick lies in `[0,1]` then the updated value `s + (dt * speed) / 6000`,
capped at 1, also lies in `[0,1]` and is at least the previous value; once
the step reaches 1 it stays 1 on every subsequent tick. -/
theorem tickStep_invariant (s dt speed : ℚ) (hdt : 0 ≤ dt) (hsp : 0 ≤ speed)
    (h0 : 0 ≤ s) (h1 : s ≤ 1) :
    (0 ≤ NurseAnim.tickStep s dt speed ∧ NurseAnim.tickStep s dt speed ≤ 1) ∧
    s ≤ NurseAnim.tickStep s dt speed ∧
    NurseAnim.tickStep 1 dt speed = 1 := by
  have hinc : 0 ≤ dt * speed / 6000 := by positivity
  unfold NurseAnim.tickStep
  dsimp only
  split_ifs with h h' <;> refine ⟨⟨?_, ?_⟩, ?_, ?_⟩ <;> linarith

/-- Witness for C1 at `s = 1/2`, `dt = 3000`, `speed = 1`: the update is
capped at exactly 1. -/
theorem tickStep_invariant_witness :
    (0 ≤ NurseAnim.tickStep (1/2) 3000 1 ∧ NurseAnim.tickStep (1/2) 3000 1 ≤ 1) ∧
    (1/2 : ℚ) ≤ NurseAnim.tickStep (1/2) 3000 1 ∧
    NurseAnim.tickStep 1 3000 1 = 1 :=
  tickStep_invariant (1/2) 3000 1 (by norm_num) (by norm_num) (by norm_num) (by norm_num)

/-- Claim C2: the derived timeline slices `writeProg`, `arrowProg` and
`fileProg` each lie in `[0,1]` for every step, are monotone nondecreasing
in the step, equal 0 at or below the start of their window, and equal 1
from the window's end onward. -/
theorem timeline_slices (step step' : ℚ) (hle : step ≤ step') :
    (0 ≤ NurseAnim.writeProg step ∧ NurseAnim.writeProg step ≤ 1) ∧
    (0 ≤ NurseAnim.arrowProg step ∧ NurseAnim.arrowProg step ≤ 1) ∧
    (0 ≤ NurseAnim.fileProg step ∧ NurseAnim.fileProg step ≤ 1) ∧
    (NurseAnim.writeProg step ≤ NurseAnim.writeProg step' ∧
     NurseAnim.arrowProg step ≤ NurseAnim.arrowProg step' ∧
     NurseAnim.fileProg step ≤ NurseAnim.fileProg step') ∧
    (step ≤ 0 → NurseAnim.writeProg step = 0) ∧
    (step ≤ 0.35 → NurseAnim.arrowProg step = 0 ∧ NurseAnim.fileProg step = 0) ∧
    (0.35 ≤ step → NurseAnim.writeProg step = 1) ∧
    (0.55 ≤ step → NurseAnim.arrowProg step = 1) ∧
    (0.80 ≤ step → NurseAnim.fileProg step = 1) := by
  unfold NurseAnim.writeProg NurseAnim.arrowProg NurseAnim.fileProg
  refine ⟨⟨NurseAnim.clamp01_nonneg _, NurseAnim.clamp01_le_one _⟩,
    ⟨NurseAnim.clamp01_nonneg _, NurseAnim.clamp01_le_one _⟩,
    ⟨NurseAnim.clamp01_nonneg _, NurseAnim.clamp01_le_one _⟩,
    ⟨NurseAnim.clamp01_mono (NurseAnim.mapRange_mono _ _ hle),
     NurseAnim.clamp01_mono (NurseAnim.mapRange_mono _ _ hle),
     NurseAnim.clamp01_mono (NurseAnim.mapRange_mono _ _ hle)⟩,
    ?_, ?_, ?_, ?_, ?_⟩
  · intro h
    rw [NurseAnim.mapRange_of_le _ h]
    norm_num [NurseAnim.clamp01]
  · intro h
    rw [NurseAnim.mapRange_of_le _ h, NurseAnim.mapRange_of_le _ h]
    norm_num [NurseAnim.clamp01]
  · intro h
    rw [NurseAnim.mapRange_of_ge (by norm_num) h]
    norm_num [NurseAnim.clamp01]
  · intro h
    rw [NurseAnim.mapRange_of_ge (by norm_num) h]
    norm_num [NurseAnim.clamp01]
  · intro h
    rw [NurseAnim.mapRange_of_ge (by norm_num) h]
    norm_num [NurseAnim.clamp01]

/-- Witness for C2 at `step = 1/2`, `step' = 1`: `writeProg` at `1/2` is in
`[0,1]` and already saturated to 1. -/
theorem timeline_slices_witness :
    (0 ≤ NurseAnim.writeProg (1/2) ∧ NurseAnim.writeProg (1/2) ≤ 1) ∧
    NurseAnim.writeProg (1/2) = 1 ∧ NurseAnim.arrowProg 0 = 0 :=
  ⟨(timeline_slices (1/2) 1 (by norm_num)).1,
   (timeline_slices (1/2) 1 (by norm_num)).2.2.2.2.2.2.1 (by norm_num),
   ((timeline_slices 0 1 (by norm_num)).2.2.2.2.2.1 (by norm_num)).1⟩

/-- Claim C3: the monitor cards become visible in the fixed narrative
order: `showVitals` at `step ≥ 0.6`, `showPain` at `step ≥ 0.75`,
`showNotes` at `step ≥ 0.9`; whenever Subjective Notes is visible, Pain
Assessment is visible, and whenever Pain Assessment is visible, Vitals is
visible. -/
theorem monitor_card_order (step : ℚ) :
    (NurseAnim.showNotes step → NurseAnim.showPain step) ∧
    (NurseAnim.showPain step → NurseAnim.showVitals step) ∧
    (NurseAnim.showVitals step ↔ step ≥ 0.6) ∧
    (NurseAnim.showPain step ↔ step ≥ 0.75) ∧
    (NurseAnim.showNotes step ↔ step ≥ 0.9) := by
  unfold NurseAnim.showVitals NurseAnim.showPain NurseAnim.showNotes
  exact ⟨fun h => by norm_num at h ⊢; linarith, fun h => by norm_num at h ⊢; linarith,
    Iff.rfl, Iff.rfl, Iff.rfl⟩

/-- Witness for C3 at `step = 19/20`: Notes is visible there, hence so are
Pain and Vitals. -/
theorem monitor_card_order_witness :
    NurseAnim.showPain (19/20) ∧ NurseAnim.showVitals (19/20) :=
  ⟨(monitor_card_order (19/20)).1 (by norm_num [NurseAnim.showNotes]),
   (monitor_card_order (19/20)).2.1 (by norm_num [NurseAnim.showPain])⟩

/-- Claim C8: `mapRange` never divides by zero: the branch computing
`(v - a) / (b - a)` is reachable only when `a < v < b`, which forces
`b - a > 0`; moreover for every `a < b` the result lies in `[0,1]` for all
`v`, is monotone nondecreasing in `v`, returns 0 for `v ≤ a` and 1 for
`v ≥ b`. -/
theorem mapRange_division_safe (v v' a b : ℚ) :
    ((¬ v ≤ a) → (¬ v ≥ b) → 0 < b - a) ∧
    (a < b →
      (0 ≤ NurseAnim.mapRange v a b ∧ NurseAnim.mapRange v a b ≤ 1) ∧
      (v ≤ v' → NurseAnim.mapRange v a b ≤ NurseAnim.mapRange v' a b) ∧
      (v ≤ a → NurseAnim.mapRange v a b = 0) ∧
      (b ≤ v → NurseAnim.mapRange v a b = 1)) := by
  refine ⟨fun h1 h2 => by push_neg at h1 h2; linarith, fun hab =>
    ⟨⟨NurseAnim.mapRange_nonneg v a b, NurseAnim.mapRange_le_one v a b⟩,
     fun h => NurseAnim.mapRange_mono a b h,
     fun h => NurseAnim.mapRange_of_le b h,
     fun h => NurseAnim.mapRange_of_ge hab h⟩⟩

/-- Witness for C8 at `v = 1`, `a = 0`, `b = 3`: the interior branch is
reachable and the divisor is positive; at `v = 3` the result is 1. -/
theorem mapRange_division_safe_witness :
    (0:ℚ) < 3 - 0 ∧ NurseAnim.mapRange 3 0 3 = 1 :=
  ⟨(mapRange_division_safe 1 2 0 3).1 (by norm_num) (by norm_num),
   ((mapRange_division_safe 3 3 0 3).2 (by norm_num)).2.2.2 (by norm_num)⟩

theorem NurseAnim.jsTruthyStr_eq_false_iff (o : Option String) :
    NurseAnim.jsTruthyStr o = false ↔ o = none ∨ o = some "" := by
  cases o with
  | none => simp [NurseAnim.jsTruthyStr]
  | some s => simp [NurseAnim.jsTruthyStr]

/-- Claim C4: in `DoctorProcessAnimation`, the i-th step's animation delay
is `(staggerMs / 2000) * i` seconds, strictly increasing in `i` when
`staggerMs > 0`, and the file-handoff delay
`steps.length * (staggerMs / 2000) + 0.2` is strictly greater than every
step's delay, so the handoff is scheduled after every step. -/
theorem doctor_delays (staggerMs : ℚ) (n i j : ℕ) (hms : 0 ≤ staggerMs)
    (hin : i < n) (hij : i < j) :
    DoctorAnim.stepDelaySec staggerMs i = staggerMs / 2000 * i ∧
    (0 < staggerMs →
      DoctorAnim.stepDelaySec staggerMs i < DoctorAnim.stepDelaySec staggerMs j) ∧
    DoctorAnim.stepDelaySec staggerMs i < DoctorAnim.handoffDelaySec staggerMs n := by
  unfold DoctorAnim.stepDelaySec DoctorAnim.handoffDelaySec DoctorAnim.perItemDelaySec
  refine ⟨rfl, ?_, ?_⟩
  · intro hpos
    have hij' : (i:ℚ) < j := by exact_mod_cast hij
    exact mul_lt_mul_of_pos_left hij' (by positivity)
  · have hin' : (i:ℚ) < n := by exact_mod_cast hin
    have h2 : staggerMs / 2000 * i ≤ staggerMs / 2000 * n :=
      mul_le_mul_of_nonneg_left (le_of_lt hin') (by positivity)
    calc staggerMs / 2000 * i ≤ staggerMs / 2000 * n := h2
    _ < (n:ℚ) * (staggerMs / 2000) + 0.2 := by rw [mul_comm]; norm_num

/-- Witness for C4 at the default `staggerMs = 750` with five steps: the
first delay is below the second, and below the handoff delay. -/
theorem doctor_delays_witness :
    DoctorAnim.stepDelaySec 750 0 < DoctorAnim.stepDelaySec 750 1 ∧
    DoctorAnim.stepDelaySec 750 0 < DoctorAnim.handoffDelaySec 750 5 :=
  ⟨(doctor_delays 750 5 0 1 (by norm_num) (by norm_num) (by norm_num)).2.1 (by norm_num),
   (doctor_delays 750 5 0 1 (by norm_num) (by norm_num) (by norm_num)).2.2⟩

/-- Counterexample to Claim C5 as stated: at `fileIconUrl = some ""` (a
defined prop) and `progress = 1/2`, `FileTransfer` returns `null` — the
empty string is falsy in `!fileIconUrl` — even though `fileIconUrl` is not
undefined, `progress > 0` and `progress ≤ 1`. -/
theorem fileTransfer_null_iff_cex :
    NurseAnim.fileTransferRender (1/2) (some "") = none ∧
    ¬ ((some "" : Option String) = none ∨ (1/2:ℚ) ≤ 0 ∨ (1/2:ℚ) > 1) := by
  constructor
  · simp [NurseAnim.fileTransferRender, NurseAnim.jsTruthyStr]
  · push_neg
    refine ⟨Option.some_ne_none _, by norm_num, by norm_num⟩

/-- Claim C5 (amended): `FileTransfer` renders nothing (returns null) if
and only if `fileIconUrl` is undefined or the empty string (both falsy in
JavaScript) or `progress ≤ 0` or `progress > 1`; for every nonempty
`fileIconUrl` and every `0 < progress ≤ 1` it renders the file icon on the
half-circle arc at the eased parameter `easeInOutQuad(clamp01(progress))`. -/
theorem fileTransfer_render_spec (progress : ℚ) (url : Option String) :
    (NurseAnim.fileTransferRender progress url = none ↔
      (url = none ∨ url = some "" ∨ progress ≤ 0 ∨ 1 < progress)) ∧
    (∀ u : String, u ≠ "" → 0 < progress → progress ≤ 1 →
      NurseAnim.fileTransferRender progress (some u) =
        some (NurseAnim.easeInOutQuad (NurseAnim.clamp01 progress))) := by
  constructor
  · rw [NurseAnim.fileTransferRender]
    split_ifs with h
    · simp only [true_iff]
      rcases h with h | h | h
      · rcases (NurseAnim.jsTruthyStr_eq_false_iff url).mp h with h' | h'
        · exact Or.inl h'
        · exact Or.inr (Or.inl h')
      · exact Or.inr (Or.inr (Or.inl h))
      · exact Or.inr (Or.inr (Or.inr h))
    · push_neg at h
      obtain ⟨h1, h2, h3⟩ := h
      apply iff_of_false (by simp)
      rintro (rfl | rfl | hc | hc)
      · exact h1 (by simp [NurseAnim.jsTruthyStr])
      · exact h1 (by simp [NurseAnim.jsTruthyStr])
      · exact absurd hc (not_le.mpr h2)
      · exact absurd hc (not_lt.mpr h3)
  · intro u hu hpos hple
    have hcond : ¬ (NurseAnim.jsTruthyStr (some u) = false ∨ progress ≤ 0 ∨ progress > 1) := by
      push_neg
      exact ⟨by simp [NurseAnim.jsTruthyStr, hu], hpos, hple⟩
    rw [NurseAnim.fileTransferRender, if_neg hcond]

/-- Witness for C5 (amended) at `url = some "a"`, `progress = 1/2`: the icon
is rendered at the eased parameter; and at `url = none` nothing renders. -/
theorem fileTransfer_render_spec_witness :
    NurseAnim.fileTransferRender (1/2) (some "a") =
      some (NurseAnim.easeInOutQuad (NurseAnim.clamp01 (1/2))) ∧
    NurseAnim.fileTransferRender 0 none = none :=
  ⟨(fileTransfer_render_spec (1/2) (some "a")).2 "a" (by simp) (by norm_num) (by norm_num),
   (fileTransfer_render_spec 0 none).1.mpr (Or.inl rfl)⟩

/-- Claim C6: every omitted optional prop falls back to its built-in
default: `steps` to the five-entry list, `start` to `false`, `staggerMs`
to 750, `disableFinalHandoff` to `false`, `clinicalNoteText` to
`"Clinical Note"`, and an omitted `nurseIconUrl` selects the built-in
`SvgNurseCap` icon. -/
theorem defaults_resolved :
    DoctorAnim.resolveSteps none =
      [⟨"Lab Order"⟩, ⟨"Prescription Order"⟩, ⟨"Imaging Order"⟩,
       ⟨"Follow up"⟩, ⟨"Referral"⟩] ∧
    DoctorAnim.resolveStart none = false ∧
    DoctorAnim.resolveStaggerMs none = 750 ∧
    DoctorAnim.resolveDisableFinalHandoff none = false ∧
    DoctorAnim.resolveClinicalNoteText none = "Clinical Note" ∧
    NurseAnim.nurseIcon none = NurseAnim.NurseIconChoice.svgNurseCap :=
  ⟨rfl, rfl, rfl, rfl, rfl, rfl⟩

theorem Combined.foldl_bridgeTick_outstanding_le (t0 dur : ℚ) :
    ∀ (times : List ℚ) (st : Combined.BridgeState), st.outstanding ≤ 1 →
      (times.foldl (Combined.bridgeTick t0 dur) st).outstanding ≤ 1 := by
  intro times
  induction times with
  | nil => intro st h; exact h
  | cons t ts ih =>
    intro st h
    apply ih
    unfold Combined.bridgeTick
    split
    · exact h
    · dsimp only
      split <;> norm_num

/-- Claim C7: in the bridge loop of `CombinedAnimation`, for
`bridgeDurationMs > 0` and frame time `now ≥ t0` the computed progress
`min(1, (now - t0)/bridgeDurationMs)` lies in `[0,1]` and is nondecreasing
in `now`; a further frame is requested iff the progress is below 1 (so the
loop stops scheduling once it reaches 1 and a consumed state stays put),
at most one request is ever outstanding, and cleanup cancels it. -/
theorem bridge_loop_spec (t0 dur now now₁ now₂ : ℚ) (hdur : 0 < dur)
    (hnow : t0 ≤ now) (hle : now₁ ≤ now₂) :
    (0 ≤ Combined.bridgeProgress t0 dur now ∧ Combined.bridgeProgress t0 dur now ≤ 1) ∧
    Combined.bridgeProgress t0 dur now₁ ≤ Combined.bridgeProgress t0 dur now₂ ∧
    (∀ times : List ℚ, (Combined.runBridge t0 dur times).outstanding ≤ 1) ∧
    (∀ st : Combined.BridgeState, st.outstanding ≠ 0 →
      ((Combined.bridgeTick t0 dur st now).outstanding = 1 ↔
        Combined.bridgeProgress t0 dur now < 1)) ∧
    (∀ st : Combined.BridgeState, st.outstanding = 0 →
      Combined.bridgeTick t0 dur st now = st) ∧
    (∀ st : Combined.BridgeState, (Combined.cancelBridge st).outstanding = 0) := by
  refine ⟨⟨le_min (by norm_num) (div_nonneg (by linarith) hdur.le), min_le_left _ _⟩,
    min_le_min le_rfl ((div_le_div_iff_of_pos_right hdur).mpr (by linarith)),
    fun times => Combined.foldl_bridgeTick_outstanding_le t0 dur times
      Combined.bridgeInit le_rfl,
    ?_, ?_, fun st => rfl⟩
  · intro st h
    unfold Combined.bridgeTick
    rw [if_neg h]
    dsimp only
    split_ifs with hp
    · simp [hp]
    · simp [hp]
  · intro st h
    unfold Combined.bridgeTick
    rw [if_pos h]

/-- Witness for C7 at `t0 = 0`, `dur = 2`, frame times 1, 2, 3: progress is
bounded, monotone from time 0 to 1, and the run keeps at most one
outstanding request. -/
theorem bridge_loop_spec_witness :
    (0 ≤ Combined.bridgeProgress 0 2 1 ∧ Combined.bridgeProgress 0 2 1 ≤ 1) ∧
    Combined.bridgeProgress 0 2 0 ≤ Combined.bridgeProgress 0 2 1 ∧
    (Combined.runBridge 0 2 [1, 2, 3]).outstanding ≤ 1 :=
  ⟨(bridge_loop_spec 0 2 1 0 1 (by norm_num) (by norm_num) (by norm_num)).1,
   (bridge_loop_spec 0 2 1 0 1 (by norm_num) (by norm_num) (by norm_num)).2.1,
   (bridge_loop_spec 0 2 1 0 1 (by norm_num) (by norm_num) (by norm_num)).2.2.1 [1, 2, 3]⟩
